import Mathlib

/-!
Verification development for the CodeForge coding-practice CLI.

This file gives a shallow embedding of the parts of the program that the
specification talks about: the data model (`src/codeforge/models.py`), the
review engine (`src/codeforge/review.py`), the level system
(`src/codeforge/stats.py`), the hint system (`src/codeforge/hints.py`) and
the submission flow (`src/codeforge/submission.py`), together with theorems
about them.  Effectful pieces (file system, subprocess, HTTP oracle) are
modelled by passing their observable outcomes explicitly; the persisted
session record is threaded as an `Option Session` (`none` = no session file).
-/

namespace CodeForge

/-! ## Data model (`models.py`) -/

/-- `Difficulty` enum from `models.py`. -/
inductive Difficulty
  | easy
  | medium
  | hard
deriving DecidableEq, Repr

/-- `SessionStatus` enum from `models.py`. -/
inductive SessionStatus
  | not_started
  | in_progress
  | submitted
  | reviewed
deriving DecidableEq, Repr

/-- `ChallengeSetup` dataclass from `models.py`. -/
structure ChallengeSetup where
  base_commit : String
  solution_commit : String
  test_command : String
  files_of_interest : List String
deriving DecidableEq, Repr

/-- `Challenge` dataclass from `models.py`. -/
structure Challenge where
  id : String
  title : String
  repo : String
  difficulty : Difficulty
  time_limit : Nat
  description : String
  setup : ChallengeSetup
  tags : List String
  hints : List String
deriving DecidableEq, Repr

/-- `ReviewScore` dataclass from `models.py` (five 1-10 dimensions plus
feedback text).  Python stores plain ints, modelled as `Int`. -/
structure ReviewScore where
  correctness : Int
  approach : Int
  code_quality : Int
  edge_cases : Int
  thinking_quality : Int
  feedback : String
deriving DecidableEq, Repr

/-- `ReviewScore.average`: `sum(scores) / len(scores)` over the five
dimensions; Python float division, modelled exactly in `ℚ`. -/
def ReviewScore.average (s : ReviewScore) : ℚ :=
  (((s.correctness + s.approach + s.code_quality + s.edge_cases
      + s.thinking_quality : Int) : ℚ)) / 5

/-- `Session` dataclass from `models.py` (the persisted session record;
the unused `retro` field is omitted). -/
structure Session where
  challenge_id : String
  status : SessionStatus
  start_time : Option String
  end_time : Option String
  hints_used : List Nat
  test_passed : Option Bool
  test_output : String
  user_diff : String
  solution_diff : String
  review : Option ReviewScore
deriving DecidableEq, Repr

/-! ## Review engine (`review.py`) -/

/-- A value supplied by the untrusted oracle for one score dimension, as seen
by `_clamp`: either `int(value)` succeeded (carrying the converted integer) or
the conversion raised `TypeError`/`ValueError`. -/
inductive ScoreVal
  | num (i : Int)
  | nonNum
deriving DecidableEq, Repr

/-- `_clamp(value, min_val=1, max_val=10)` from `review.py`:
`max(min_val, min(max_val, int(value)))`, defaulting to 5 when the conversion
raises.  It is always called with the default bounds 1 and 10. -/
def clamp (value : ScoreVal) : Int :=
  match value with
  | .num i => max 1 (min 10 i)
  | .nonNum => 5

/-- The five dimension values and feedback extracted from the oracle's JSON
by `_parse_review_json` (each defaults to `num 0` when the key is missing). -/
structure OracleFields where
  correctness : ScoreVal
  approach : ScoreVal
  code_quality : ScoreVal
  edge_cases : ScoreVal
  thinking_quality : ScoreVal
  feedback : String
deriving DecidableEq, Repr

/-- The score-building part of `_parse_review_json` from `review.py`: each of
the five dimensions is clamped independently. -/
def parse_review_json (fields : OracleFields) : ReviewScore :=
  { correctness := clamp fields.correctness
    approach := clamp fields.approach
    code_quality := clamp fields.code_quality
    edge_cases := clamp fields.edge_cases
    thinking_quality := clamp fields.thinking_quality
    feedback := fields.feedback }

/-- One penalized dimension: Python `max(1, int(x - penalty))` with
`penalty = 0.5 * n`.  `x - 0.5 * n` is a half-integer, exact in binary
floating point, and Python `int()` truncates toward zero, so the result is
exactly `max 1 (Int.tdiv (2*x - n) 2)` (`Int.tdiv` is truncating division). -/
def penalizedDim (x : Int) (n : Nat) : Int :=
  max 1 (Int.tdiv (2 * x - n) 2)

/-- `_apply_hint_penalty(score, session, challenge)` from `review.py`: returns
`score` unchanged when no hints were used, otherwise subtracts
`0.5 * len(session.hints_used)` from correctness, approach, edge_cases and
thinking_quality (each floored at 1 via `max(1, int(...))`); code_quality is
left unchanged.  The `challenge` argument is unused in the Python body. -/
def apply_hint_penalty (score : ReviewScore) (session : Session) : ReviewScore :=
  if session.hints_used = [] then score
  else
    let n := session.hints_used.length
    { correctness := penalizedDim score.correctness n
      approach := penalizedDim score.approach n
      code_quality := score.code_quality
      edge_cases := penalizedDim score.edge_cases n
      thinking_quality := penalizedDim score.thinking_quality n
      feedback := score.feedback }

/-- Outcome of `review_challenge` (`review.py`): success (True), no session
record found, or the must-submit-first rejection. -/
inductive ReviewOutcome
  | ok
  | errNoSession
  | errMustSubmit
deriving DecidableEq, Repr

/-- The observable environment of `review_challenge`: the `export` flag,
whether `api_key` and `api_provider` are both configured, and what
`_api_review` would return (`none` = API failure, which falls back to export
mode). -/
structure ReviewEnv where
  exportFlag : Bool
  apiConfigured : Bool
  oracleScore : Option ReviewScore
deriving DecidableEq, Repr

/-- `review_challenge(challenge, export)` from `review.py`, threading the
persisted session record.  Only the API-mode success path applies the hint
penalty, sets `session.review`, moves the status to `reviewed` and saves;
export mode (and API failure falling back to it) prints text without touching
the record. -/
def review_challenge (env : ReviewEnv) (stored : Option Session) :
    ReviewOutcome × Option Session :=
  match stored with
  | none => (.errNoSession, none)
  | some session =>
    if session.status ≠ .submitted ∧ session.status ≠ .reviewed then
      (.errMustSubmit, some session)
    else if env.exportFlag = false ∧ env.apiConfigured = true then
      match env.oracleScore with
      | some score =>
        let score2 := apply_hint_penalty score session
        (.ok, some { session with review := some score2, status := .reviewed })
      | none => (.ok, some session)
    else (.ok, some session)

/-- `save_manual_review(challenge_id, c, a, q, e, t, feedback)` from
`review.py`: requires only that the session record exists; clamps each score,
sets `session.review`, sets the status to `reviewed` and saves.  It performs
no status-precondition check. -/
def save_manual_review (stored : Option Session)
    (correctness approach code_quality edge_cases thinking_quality : Int)
    (feedback : String) : Bool × Option Session :=
  match stored with
  | none => (false, none)
  | some session =>
    let s2 : Session :=
      { session with
        review := some
          { correctness := clamp (.num correctness)
            approach := clamp (.num approach)
            code_quality := clamp (.num code_quality)
            edge_cases := clamp (.num edge_cases)
            thinking_quality := clamp (.num thinking_quality)
            feedback := feedback }
        status := .reviewed }
    (true, some s2)

/-! ## Level system (`stats.py`) -/

/-- One entry of the `LEVELS` table in `stats.py`. -/
structure LevelSpec where
  level : Nat
  title : String
  title_cn : String
  min_completed : Nat
  min_avg_score : ℚ
  min_hard : Nat
  icon : String
deriving DecidableEq, Repr

/-- `LEVELS[0]` (Novice). -/
def noviceLevel : LevelSpec :=
  { level := 1, title := "Novice", title_cn := "新手"
    min_completed := 1, min_avg_score := 0, min_hard := 0, icon := "🌱" }

/-- `LEVELS[1]` (Apprentice). -/
def apprenticeLevel : LevelSpec :=
  { level := 2, title := "Apprentice", title_cn := "学徒"
    min_completed := 5, min_avg_score := 5, min_hard := 0, icon := "🔧" }

/-- `LEVELS[2]` (Journeyman). -/
def journeymanLevel : LevelSpec :=
  { level := 3, title := "Journeyman", title_cn := "熟手"
    min_completed := 10, min_avg_score := 6, min_hard := 0, icon := "⚔️" }

/-- `LEVELS[3]` (Craftsman). -/
def craftsmanLevel : LevelSpec :=
  { level := 4, title := "Craftsman", title_cn := "匠人"
    min_completed := 15, min_avg_score := 7, min_hard := 1, icon := "🛡️" }

/-- `LEVELS[4]` (Master). -/
def masterLevel : LevelSpec :=
  { level := 5, title := "Master", title_cn := "大师"
    min_completed := 18, min_avg_score := 8, min_hard := 3, icon := "👑" }

/-- The `LEVELS` table from `stats.py`, in order. -/
def LEVELS : List LevelSpec :=
  [noviceLevel, apprenticeLevel, journeymanLevel, craftsmanLevel, masterLevel]

/-- One summary dict produced by `collect_stats` in `stats.py`, restricted to
the keys `calculate_level` reads: `difficulty`, and `average_score`, which is
present iff the session has a review (`none` = key absent). -/
structure StatEntry where
  difficulty : String
  average_score : Option ℚ
deriving DecidableEq, Repr

/-- `reviewed = [s for s in stats if "average_score" in s]`. -/
def reviewedEntries (stats : List StatEntry) : List StatEntry :=
  stats.filter (fun s => s.average_score.isSome)

/-- `completed = len(stats)`. -/
def completedCount (stats : List StatEntry) : Nat :=
  stats.length

/-- `avg_score = sum(...) / len(reviewed) if reviewed else 0`
(Python float division, modelled in `ℚ`). -/
def avgScore (stats : List StatEntry) : ℚ :=
  let reviewed := reviewedEntries stats
  if reviewed.length = 0 then 0
  else ((reviewed.map (fun s => s.average_score.getD 0)).sum) / (reviewed.length : ℚ)

/-- `hard_completed = sum(1 for s in reviewed if s["difficulty"] == "hard")`. -/
def hardCompleted (stats : List StatEntry) : Nat :=
  ((reviewedEntries stats).filter (fun s => s.difficulty == "hard")).length

/-- The threshold test in the body of `calculate_level`'s loop. -/
def levelMet (stats : List StatEntry) (l : LevelSpec) : Bool :=
  decide (l.min_completed ≤ completedCount stats)
    && decide (l.min_avg_score ≤ avgScore stats)
    && decide (l.min_hard ≤ hardCompleted stats)

/-- The `for level in LEVELS: ... else break` loop of `calculate_level`:
walks the table in order, remembers the last tier whose thresholds held, and
stops at the first tier whose thresholds fail. -/
def levelLoop (met : LevelSpec → Bool) : List LevelSpec → LevelSpec → LevelSpec
  | [], cur => cur
  | l :: rest, cur => if met l then levelLoop met rest l else cur

/-- `calculate_level(stats)` from `stats.py`: starts from `LEVELS[0]` and runs
the loop over the whole table. -/
def calculate_level (stats : List StatEntry) : LevelSpec :=
  levelLoop (levelMet stats) LEVELS noviceLevel

/-! ## Hint system (`hints.py`) -/

/-- `show_hint(challenge)` from `hints.py`, threading the persisted session
record.  `hints` is `challenge.hints`.  Returns whether a hint was shown
together with the record after the call.  Failure branches, in source order:
no session file, status not in-progress, no hints available, all hints used;
the success branch appends `len(session.hints_used)` as the next index and
saves. -/
def show_hint (hints : List String) (stored : Option Session) :
    Bool × Option Session :=
  match stored with
  | none => (false, none)
  | some session =>
    if session.status ≠ .in_progress then (false, some session)
    else if hints.length = 0 then (false, some session)
    else if hints.length ≤ session.hints_used.length then (false, some session)
    else
      (true, some { session with
        hints_used := session.hints_used ++ [session.hints_used.length] })

/-- The record after `h` consecutive `show_hint` calls. -/
def iterate_hints (hints : List String) (stored : Option Session) : Nat → Option Session
  | 0 => stored
  | h + 1 => (show_hint hints (iterate_hints hints stored h)).2

/-! ## Submission flow (`submission.py`) -/

/-- Observable behaviour of the `subprocess.run` call in `_run_tests`: normal
completion with an exit code and captured streams, `TimeoutExpired`, or any
other exception. -/
inductive ExecOutcome
  | completed (returncode : Int) (stdout stderr : String)
  | timedOut
  | failed (msg : String)
deriving DecidableEq, Repr

/-- `_run_tests(repo_dir, test_command, timeout=120)` from `submission.py`:
on completion returns `(returncode == 0, (stdout + "\n" + stderr).strip())`;
`TimeoutExpired` and other exceptions are caught and reported as a failed
result, never re-raised. -/
def run_tests (outcome : ExecOutcome) (timeout : Nat) : Bool × String :=
  match outcome with
  | .completed rc stdout stderr => (rc == 0, (stdout ++ "\n" ++ stderr).trim)
  | .timedOut => (false, "测试超时 (" ++ toString timeout ++ "s)")
  | .failed msg => (false, "测试运行失败: " ++ msg)

/-- The default `timeout=120` of `_run_tests`; `submit_challenge` calls
`_run_tests` without overriding it. -/
def testTimeout : Nat := 120

/-- The distinct rejection reasons of `submit_challenge`, in source order. -/
inductive SubmitError
  | noSession
  | alreadySubmitted
  | alreadyReviewed
  | badStatus
  | journalInvalid (reason : String)
  | noChanges
deriving DecidableEq, Repr

/-- Observable environment of one `submit_challenge` call: the result of
`validate_journal`, the result of `has_changes` / `get_all_changes` on the
workspace, the behaviour of the test subprocess, and the timestamp
`datetime.now().isoformat()` taken by `session.submit()`. -/
structure SubmitEnv where
  journalValid : Bool
  journalReason : String
  hasChanges : Bool
  changes : String
  testOutcome : ExecOutcome
  now : String
deriving DecidableEq, Repr

/-- `submit_challenge(challenge)` from `submission.py`, threading the
persisted session record.  All rejections happen before any mutation; on the
success path the diff is captured, tests run when
`challenge.setup.test_command` is non-empty, `session.submit()` sets the
status and end time, and the record is saved once at the end. -/
def submit_challenge (challenge : Challenge) (env : SubmitEnv)
    (stored : Option Session) : Except SubmitError Session × Option Session :=
  match stored with
  | none => (.error .noSession, none)
  | some session =>
    if session.status = .submitted then (.error .alreadySubmitted, some session)
    else if session.status = .reviewed then (.error .alreadyReviewed, some session)
    else if session.status ≠ .in_progress then (.error .badStatus, some session)
    else if env.journalValid = false then
      (.error (.journalInvalid env.journalReason), some session)
    else if env.hasChanges = false then (.error .noChanges, some session)
    else
      let s1 := { session with user_diff := env.changes }
      let s2 :=
        if challenge.setup.test_command ≠ "" then
          let r := run_tests env.testOutcome testTimeout
          { s1 with test_passed := some r.1, test_output := r.2 }
        else s1
      let s3 := { s2 with status := SessionStatus.submitted, end_time := some env.now }
      (.ok s3, some s3)

/-! ## Concrete fixtures used by witnesses and counterexamples -/

/-- A concrete challenge with a configured test command and two hints. -/
def demoChallenge : Challenge :=
  { id := "demo", title := "Demo", repo := "octo/demo", difficulty := .easy
    time_limit := 30, description := "fix the bug"
    setup := { base_commit := "b0", solution_commit := "s0"
               test_command := "pytest", files_of_interest := [] }
    tags := [], hints := ["look at the parser", "check the cache"] }

/-- A submitted session that used hints 0 and 1. -/
def demoTwoHintSession : Session :=
  { challenge_id := "demo", status := .submitted
    start_time := some "2024-01-01T10:00:00", end_time := some "2024-01-01T10:30:00"
    hints_used := [0, 1], test_passed := some true, test_output := "ok"
    user_diff := "diff-a", solution_diff := "diff-b", review := none }

/-- An in-progress session with no hints used yet. -/
def demoInProgressSession : Session :=
  { challenge_id := "demo", status := .in_progress
    start_time := some "2024-01-01T10:00:00", end_time := none
    hints_used := [], test_passed := none, test_output := ""
    user_diff := "", solution_diff := "diff-b", review := none }

/-- The raw oracle score used in the spec's hint-penalty scenario. -/
def demoRawScore : ReviewScore :=
  { correctness := 8, approach := 7, code_quality := 9
    edge_cases := 6, thinking_quality := 8, feedback := "" }

/-! ## Helper lemmas -/

/-- The truncating penalty arithmetic coincides with the floor-based formula
`max 1 ⌊x - n/2⌋`: for a nonnegative shifted value truncation and floor agree,
and for a negative one both are absorbed by the outer `max 1`. -/
theorem penalizedDim_eq_floor (x : Int) (n : Nat) :
    penalizedDim x n = max 1 ⌊(x : ℚ) - (n : ℚ) / 2⌋ := by
  have hfl : ⌊(x : ℚ) - (n : ℚ) / 2⌋ = (2 * x - n) / 2 := by
    have h : (x : ℚ) - (n : ℚ) / 2 = ((2 * x - (n : ℤ) : ℤ) : ℚ) / ((2 : ℕ) : ℚ) := by
      push_cast
      ring
    rw [h, Rat.floor_intCast_div_natCast]
    norm_num
  rw [penalizedDim, hfl]
  rcases le_or_lt 0 (2 * x - (n : Int)) with h | h
  · rw [Int.tdiv_eq_ediv h (by norm_num)]
  · have h2 : 0 ≤ Int.tdiv (-(2 * x - (n : Int))) 2 :=
      Int.tdiv_nonneg (by omega) (by norm_num)
    have h3 : Int.tdiv (-(2 * x - (n : Int))) 2 = -(Int.tdiv (2 * x - (n : Int)) 2) :=
      Int.neg_tdiv _ 2
    have h4 : (2 * x - (n : Int)) / 2 ≤ 0 := by omega
    rw [max_eq_left (by omega), max_eq_left (by omega)]

/-! ## Claim theorems -/

/-- C1 counterexample: the claim says thinking_quality is unchanged by the
hint penalty, but on the raw score (8,7,9,6,8) with two hints used the code
lowers thinking_quality from 8 to 7. -/
theorem hint_penalty_changes_thinking :
    (apply_hint_penalty demoRawScore demoTwoHintSession).thinking_quality = 7 ∧
    demoRawScore.thinking_quality = 8 ∧ (7 : Int) ≠ 8 := by
  decide

/-- C1 (amended): with raw scores at least 1 (as produced by the mandatory
clamp) and n hints used, the penalty maps correctness, approach, edge_cases
AND thinking_quality each to `max 1 ⌊raw - 0.5*n⌋`; only code_quality (and
the feedback text) is unchanged. -/
theorem apply_hint_penalty_formula (s : ReviewScore) (sess : Session)
    (hc : 1 ≤ s.correctness) (ha : 1 ≤ s.approach)
    (he : 1 ≤ s.edge_cases) (ht : 1 ≤ s.thinking_quality) :
    apply_hint_penalty s sess =
      { correctness := max 1 ⌊(s.correctness : ℚ) - (sess.hints_used.length : ℚ) / 2⌋
        approach := max 1 ⌊(s.approach : ℚ) - (sess.hints_used.length : ℚ) / 2⌋
        code_quality := s.code_quality
        edge_cases := max 1 ⌊(s.edge_cases : ℚ) - (sess.hints_used.length : ℚ) / 2⌋
        thinking_quality := max 1 ⌊(s.thinking_quality : ℚ) - (sess.hints_used.length : ℚ) / 2⌋
        feedback := s.feedback } := by
  rw [apply_hint_penalty]
  by_cases h0 : sess.hints_used = []
  · rw [if_pos h0, h0]
    simp only [List.length_nil, Nat.cast_zero, zero_div, sub_zero, Int.floor_intCast]
    rw [max_eq_right hc, max_eq_right ha, max_eq_right he, max_eq_right ht]
  · rw [if_neg h0]
    simp only [penalizedDim_eq_floor]

/-- Witness for C1: the amended formula instantiated on the concrete scenario
score and session. -/
theorem apply_hint_penalty_formula_witness :
    apply_hint_penalty demoRawScore demoTwoHintSession =
      { correctness := 7, approach := 6, code_quality := 9
        edge_cases := 5, thinking_quality := 7, feedback := "" } := by
  rw [apply_hint_penalty_formula demoRawScore demoTwoHintSession
      (by norm_num [demoRawScore]) (by norm_num [demoRawScore])
      (by norm_num [demoRawScore]) (by norm_num [demoRawScore])]
  norm_num [demoRawScore, demoTwoHintSession]

/-- C2 counterexample: the claim says any out-of-range value defaults to the
midpoint 5, but the code clamps 12 to the upper bound 10. -/
theorem clamp_out_of_range_not_midpoint :
    clamp (.num 12) = 10 ∧ (10 : Int) ≠ 5 := by
  decide

/-- C2 (amended): in-range integers are returned unchanged and non-numeric
values default to 5, but out-of-range numeric values are clamped to the
nearest bound (1 below, 10 above), not to the midpoint. -/
theorem clamp_spec (i : Int) :
    (1 ≤ i → i ≤ 10 → clamp (.num i) = i) ∧
    (10 < i → clamp (.num i) = 10) ∧
    (i < 1 → clamp (.num i) = 1) ∧
    clamp .nonNum = 5 := by
  refine ⟨fun h1 h2 => ?_, fun h => ?_, fun h => ?_, rfl⟩ <;> simp only [clamp] <;> omega

/-- Witness for C2: the amended clamp behaviour at concrete inputs. -/
theorem clamp_spec_witness :
    clamp (.num 7) = 7 ∧ clamp (.num 12) = 10 ∧
    clamp (.num (-3)) = 1 ∧ clamp .nonNum = 5 :=
  ⟨(clamp_spec 7).1 (by norm_num) (by norm_num),
   (clamp_spec 12).2.1 (by norm_num),
   (clamp_spec (-3)).2.2.1 (by norm_num),
   (clamp_spec 0).2.2.2⟩

/-- C7: on raw oracle scores (8,7,9,6,8) with hints_used = [0,1] the
penalized review is (7,6,9,5,7) and its average is 6.8. -/
theorem hint_penalty_scenario :
    apply_hint_penalty demoRawScore demoTwoHintSession =
      { correctness := 7, approach := 6, code_quality := 9
        edge_cases := 5, thinking_quality := 7, feedback := "" } ∧
    (apply_hint_penalty demoRawScore demoTwoHintSession).average = 6.8 := by
  have h : apply_hint_penalty demoRawScore demoTwoHintSession =
      { correctness := 7, approach := 6, code_quality := 9
        edge_cases := 5, thinking_quality := 7, feedback := "" } := by
    decide
  refine ⟨h, ?_⟩
  rw [h]
  norm_num [ReviewScore.average]

/-- The break-at-first-failure loop computes the last element of the longest
prefix of tiers whose thresholds hold, defaulting to the starting value. -/
theorem levelLoop_eq_takeWhile (met : LevelSpec → Bool) :
    ∀ (ls : List LevelSpec) (cur : LevelSpec),
      levelLoop met ls cur = (ls.takeWhile met).getLastD cur
  | [], _ => rfl
  | l :: rest, cur => by
    rw [levelLoop]
    by_cases h : met l
    · rw [if_pos h, List.takeWhile_cons_of_pos h, List.getLastD_cons,
        levelLoop_eq_takeWhile met rest l]
    · rw [if_neg h, List.takeWhile_cons_of_neg h]
      rfl

/-- The loop result is either the starting value or a table entry. -/
theorem levelLoop_result_mem (met : LevelSpec → Bool) :
    ∀ (ls : List LevelSpec) (cur : LevelSpec),
      levelLoop met ls cur = cur ∨ levelLoop met ls cur ∈ ls
  | [], _ => Or.inl rfl
  | l :: rest, cur => by
    rw [levelLoop]
    by_cases h : met l
    · rw [if_pos h]
      rcases levelLoop_result_mem met rest l with h1 | h1
      · exact Or.inr (by rw [h1]; exact List.mem_cons_self l rest)
      · exact Or.inr (List.mem_cons_of_mem l h1)
    · rw [if_neg h]
      exact Or.inl rfl

/-- The spec scenario stats: 5 completed challenges, all reviewed with
average score 5.5, none of difficulty hard. -/
def apprenticeScenario : List StatEntry :=
  [{ difficulty := "easy", average_score := some (11 / 2) },
   { difficulty := "easy", average_score := some (11 / 2) },
   { difficulty := "medium", average_score := some (11 / 2) },
   { difficulty := "easy", average_score := some (11 / 2) },
   { difficulty := "medium", average_score := some (11 / 2) }]

/-- C4: the derived level is the last tier of the longest contiguous prefix
of the LEVELS table (from tier 1 up) whose thresholds all hold, so a tier is
granted only when every lower tier's thresholds hold as well; on the spec
scenario (5 completed, reviewed average 5.5, 0 hard) it is tier 2
(Apprentice), not tier 3. -/
theorem calculate_level_contiguous :
    (∀ stats, calculate_level stats =
        (LEVELS.takeWhile (levelMet stats)).getLastD noviceLevel) ∧
    calculate_level apprenticeScenario = apprenticeLevel ∧
    apprenticeLevel.level = 2 := by
  have hcomp : completedCount apprenticeScenario = 5 := rfl
  have havg : avgScore apprenticeScenario = 11 / 2 := by
    simp [avgScore, reviewedEntries, apprenticeScenario]
    norm_num
  have hhard : hardCompleted apprenticeScenario = 0 := by
    simp [hardCompleted, reviewedEntries, apprenticeScenario]
  have hm1 : levelMet apprenticeScenario noviceLevel = true := by
    simp only [levelMet, hcomp, havg, hhard]
    norm_num [noviceLevel]
  have hm2 : levelMet apprenticeScenario apprenticeLevel = true := by
    simp only [levelMet, hcomp, havg, hhard]
    norm_num [apprenticeLevel]
  have hm3 : levelMet apprenticeScenario journeymanLevel = false := by
    simp only [levelMet, hcomp, havg, hhard]
    norm_num [journeymanLevel]
  refine ⟨fun stats => levelLoop_eq_takeWhile (levelMet stats) LEVELS noviceLevel, ?_, rfl⟩
  simp only [calculate_level, LEVELS, levelLoop]
  simp [hm1, hm2, hm3]

/-- C10: on the empty stats collection the level calculation still returns
tier 1 (Novice) although tier 1's own threshold (at least 1 completed
challenge) is unmet, and for every input the derived level is at least 1. -/
theorem calculate_level_floor :
    calculate_level [] = noviceLevel ∧
    noviceLevel.level = 1 ∧
    noviceLevel.min_completed = 1 ∧
    levelMet [] noviceLevel = false ∧
    (∀ stats, 1 ≤ (calculate_level stats).level) := by
  have hm : levelMet [] noviceLevel = false := by
    simp only [levelMet]
    norm_num [completedCount, noviceLevel]
  refine ⟨?_, rfl, rfl, hm, ?_⟩
  · simp only [calculate_level, LEVELS, levelLoop]
    simp [hm]
  · intro stats
    show 1 ≤ (levelLoop (levelMet stats) LEVELS noviceLevel).level
    rcases levelLoop_result_mem (levelMet stats) LEVELS noviceLevel with h | h
    · rw [h]
      norm_num [noviceLevel]
    · revert h
      generalize levelLoop (levelMet stats) LEVELS noviceLevel = x
      intro h
      simp only [LEVELS, List.mem_cons, List.not_mem_nil, or_false] at h
      rcases h with rfl | rfl | rfl | rfl | rfl <;>
        norm_num [noviceLevel, apprenticeLevel, journeymanLevel, craftsmanLevel, masterLevel]

/-- C3: every rejected submit leaves the persisted record exactly as it was
(in particular a second submit on an already-Submitted record fails as
alreadySubmitted), and a successful submit persists, in one step, a record
that is Submitted and carries the captured diff — so no persisted state holds
a captured diff without the Submitted status. -/
theorem submit_atomic (ch : Challenge) (env : SubmitEnv) (stored : Option Session) :
    (∀ e, (submit_challenge ch env stored).1 = .error e →
        (submit_challenge ch env stored).2 = stored) ∧
    (∀ s, stored = some s → s.status = .submitted →
        (submit_challenge ch env stored).1 = .error .alreadySubmitted) ∧
    (∀ s2, (submit_challenge ch env stored).1 = .ok s2 →
        (submit_challenge ch env stored).2 = some s2 ∧
        s2.status = .submitted ∧ s2.user_diff = env.changes) := by
  rcases stored with _ | s
  · refine ⟨fun e _ => rfl, ?_, ?_⟩
    · intro t ht _
      cases ht
    · intro s2 h2
      simp [submit_challenge] at h2
  · simp only [submit_challenge]
    split_ifs with h1 h2 h3 h4 h5 h6
    · refine ⟨fun e _ => rfl, fun t _ _ => rfl, ?_⟩
      intro s2 hs2
      simp at hs2
    · refine ⟨fun e _ => rfl, ?_, ?_⟩
      · intro t ht hst
        cases ht
        exact absurd hst h1
      · intro s2 hs2
        simp at hs2
    · refine ⟨fun e _ => rfl, ?_, ?_⟩
      · intro t ht hst
        cases ht
        exact absurd hst h1
      · intro s2 hs2
        simp at hs2
    · refine ⟨fun e _ => rfl, ?_, ?_⟩
      · intro t ht hst
        cases ht
        exact absurd hst h1
      · intro s2 hs2
        simp at hs2
    · refine ⟨fun e _ => rfl, ?_, ?_⟩
      · intro t ht hst
        cases ht
        exact absurd hst h1
      · intro s2 hs2
        simp at hs2
    · refine ⟨?_, ?_, ?_⟩
      · intro e he
        exact absurd he (by simp)
      · intro t ht hst
        cases ht
        exact absurd hst h1
      · intro s2 hs2
        have heq := Except.ok.inj hs2
        subst heq
        exact ⟨rfl, rfl, rfl⟩
    · refine ⟨?_, ?_, ?_⟩
      · intro e he
        exact absurd he (by simp)
      · intro t ht hst
        cases ht
        exact absurd hst h1
      · intro s2 hs2
        have heq := Except.ok.inj hs2
        subst heq
        exact ⟨rfl, rfl, rfl⟩

/-- Witness for C3: submitting the already-submitted demo session is rejected
as alreadySubmitted and the stored record is returned untouched. -/
theorem submit_atomic_witness :
    (submit_challenge demoChallenge
        { journalValid := true, journalReason := "", hasChanges := true
          changes := "diff-a", testOutcome := .completed 0 "ok" "", now := "t1" }
        (some demoTwoHintSession)).1 = .error .alreadySubmitted ∧
    (submit_challenge demoChallenge
        { journalValid := true, journalReason := "", hasChanges := true
          changes := "diff-a", testOutcome := .completed 0 "ok" "", now := "t1" }
        (some demoTwoHintSession)).2 = some demoTwoHintSession := by
  have h := (submit_atomic demoChallenge
      { journalValid := true, journalReason := "", hasChanges := true
        changes := "diff-a", testOutcome := .completed 0 "ok" "", now := "t1" }
      (some demoTwoHintSession)).2.1 demoTwoHintSession rfl rfl
  refine ⟨h, ?_⟩
  exact (submit_atomic demoChallenge
      { journalValid := true, journalReason := "", hasChanges := true
        changes := "diff-a", testOutcome := .completed 0 "ok" "", now := "t1" }
      (some demoTwoHintSession)).1 _ h

/-- C5 counterexample: with an in-progress session, an invalid journal and no
workspace changes, the submit fails with the journal-validation reason (the
journal is checked first), not with the no-changes reason — refuting the
claim that the no-changes reason is reported regardless of journal
validity. -/
theorem submit_invalid_journal_masks_no_changes :
    (submit_challenge demoChallenge
        { journalValid := false, journalReason := "日志内容不足", hasChanges := false
          changes := "", testOutcome := .timedOut, now := "t1" }
        (some demoInProgressSession)).1 =
      .error (.journalInvalid "日志内容不足") ∧
    SubmitError.journalInvalid "日志内容不足" ≠ SubmitError.noChanges := by
  refine ⟨rfl, by decide⟩

/-- C5 (amended): on an in-progress session whose journal passes validation,
a submit with no workspace changes fails with the no-changes reason and
leaves the record unchanged; when the journal is invalid the journal failure
reason is reported instead. -/
theorem submit_no_changes_reason (ch : Challenge) (env : SubmitEnv) (s : Session)
    (hst : s.status = .in_progress) (hj : env.journalValid = true)
    (hc : env.hasChanges = false) :
    (submit_challenge ch env (some s)).1 = .error .noChanges ∧
    (submit_challenge ch env (some s)).2 = some s := by
  constructor <;> simp [submit_challenge, hst, hj, hc]

/-- Witness for C5: the amended no-changes rejection at a concrete valid
journal and unchanged workspace. -/
theorem submit_no_changes_reason_witness :
    (submit_challenge demoChallenge
        { journalValid := true, journalReason := "", hasChanges := false
          changes := "", testOutcome := .timedOut, now := "t1" }
        (some demoInProgressSession)).1 = .error .noChanges :=
  (submit_no_changes_reason demoChallenge
      { journalValid := true, journalReason := "", hasChanges := false
        changes := "", testOutcome := .timedOut, now := "t1" }
      demoInProgressSession rfl rfl rfl).1

/-- C6 counterexample: Manual mode (`save_manual_review`) performs no status
check — on an in-progress (never submitted) session it succeeds and moves the
record to Reviewed, refuting the claim that every mode fails with
must-submit-first when the status is not in {Submitted, Reviewed}. -/
theorem manual_review_skips_status_check :
    demoInProgressSession.status ≠ .submitted ∧
    demoInProgressSession.status ≠ .reviewed ∧
    (save_manual_review (some demoInProgressSession) 5 5 5 5 5 "").1 = true ∧
    ((save_manual_review (some demoInProgressSession) 5 5 5 5 5 "").2.map
        (fun s => s.status)) = some SessionStatus.reviewed := by
  refine ⟨by decide, by decide, rfl, rfl⟩

/-- C6 (amended): `review_challenge` (Automatic and Export modes) rejects any
record whose status is not Submitted or Reviewed without touching it, but
Manual mode (`save_manual_review`) only requires the record to exist: it
always succeeds and unconditionally sets the status to Reviewed. -/
theorem review_status_preconditions (env : ReviewEnv) (s : Session)
    (h1 : s.status ≠ .submitted) (h2 : s.status ≠ .reviewed) :
    review_challenge env (some s) = (.errMustSubmit, some s) ∧
    (∀ c a q e t fb, (save_manual_review (some s) c a q e t fb).1 = true ∧
      ∃ s2, (save_manual_review (some s) c a q e t fb).2 = some s2 ∧
        s2.status = .reviewed) := by
  constructor
  · simp [review_challenge, h1, h2]
  · intro c a q e t fb
    exact ⟨rfl, _, rfl, rfl⟩

/-- Witness for C6: the amended behaviour at the concrete in-progress
session. -/
theorem review_status_preconditions_witness :
    review_challenge { exportFlag := false, apiConfigured := true, oracleScore := none }
        (some demoInProgressSession) = (.errMustSubmit, some demoInProgressSession) ∧
    (save_manual_review (some demoInProgressSession) 9 9 9 9 9 "good").1 = true :=
  ⟨(review_status_preconditions
      { exportFlag := false, apiConfigured := true, oracleScore := none }
      demoInProgressSession (by decide) (by decide)).1,
   ((review_status_preconditions
      { exportFlag := false, apiConfigured := true, oracleScore := none }
      demoInProgressSession (by decide) (by decide)).2 9 9 9 9 9 "good").1⟩

/-- C8: the test command runs with the fixed 120-second timeout, combined
stdout+stderr (stripped) is captured as test_output and exit-success as
test_passed; a timeout or execution failure yields test_passed = false with a
descriptive message; and whatever the subprocess does, a submit with a
configured test command still completes with a Submitted record carrying the
test result. -/
theorem run_tests_spec :
    testTimeout = 120 ∧
    (∀ rc out err, run_tests (.completed rc out err) testTimeout =
        (rc == 0, (out ++ "\n" ++ err).trim)) ∧
    run_tests .timedOut testTimeout = (false, "测试超时 (120s)") ∧
    (∀ m, run_tests (.failed m) testTimeout = (false, "测试运行失败: " ++ m)) ∧
    (∀ ch env s, s.status = .in_progress → env.journalValid = true →
      env.hasChanges = true → ch.setup.test_command ≠ "" →
      (submit_challenge ch env (some s)).1 = .ok
        { s with user_diff := env.changes
                 test_passed := some (run_tests env.testOutcome testTimeout).1
                 test_output := (run_tests env.testOutcome testTimeout).2
                 status := .submitted, end_time := some env.now }) := by
  refine ⟨rfl, fun rc out err => rfl, rfl, fun m => rfl, ?_⟩
  intro ch env s hst hj hc htc
  simp [submit_challenge, hst, hj, hc, htc]

/-- Witness for C8: a submit whose test subprocess times out still completes,
recording test_passed = false and the timeout message. -/
theorem run_tests_spec_witness :
    (submit_challenge demoChallenge
        { journalValid := true, journalReason := "", hasChanges := true
          changes := "diff-a", testOutcome := .timedOut, now := "t1" }
        (some demoInProgressSession)).1 = .ok
      { demoInProgressSession with
          user_diff := "diff-a", test_passed := some false
          test_output := "测试超时 (120s)", status := .submitted
          end_time := some "t1" } := by
  have h := run_tests_spec.2.2.2.2 demoChallenge
      { journalValid := true, journalReason := "", hasChanges := true
        changes := "diff-a", testOutcome := .timedOut, now := "t1" }
      demoInProgressSession rfl rfl rfl (by decide)
  exact h

/-- Starting from an in-progress session with no hints used, `h ≤ total`
consecutive `show_hint` calls leave the record with `hints_used = [0..h-1]`
(each call appends the current count as the next index). -/
theorem iterate_hints_range (hints : List String) (s0 : Session)
    (hst : s0.status = .in_progress) (hh : s0.hints_used = []) :
    ∀ h, h ≤ hints.length →
      iterate_hints hints (some s0) h = some { s0 with hints_used := List.range h }
  | 0, _ => by
    rw [iterate_hints, List.range_zero, ← hh]
  | k + 1, hle => by
    rw [iterate_hints,
      iterate_hints_range hints s0 hst hh k (Nat.le_of_succ_le hle), show_hint]
    have hcond : ¬(hints.length ≤ (List.range k).length) := by
      rw [List.length_range]
      omega
    rw [if_neg (by simp [hst]), if_neg (by omega), if_neg hcond]
    simp [List.range_succ, List.length_range]

/-- C9: from a fresh in-progress session, after any `h ≤ total_hints` hint
requests the revealed indices are exactly `0..h-1` in increasing order (no
duplicates, all within `[0, total_hints)`), and a further request once
`h = total_hints` reveals nothing and leaves the record unchanged. -/
theorem hints_progressive (hints : List String) (s0 : Session)
    (hst : s0.status = .in_progress) (hh : s0.hints_used = [])
    (h : Nat) (hle : h ≤ hints.length) :
    iterate_hints hints (some s0) h = some { s0 with hints_used := List.range h } ∧
    (List.range h).Pairwise (· < ·) ∧
    (∀ i ∈ List.range h, i < hints.length) ∧
    (h = hints.length →
      show_hint hints (some { s0 with hints_used := List.range h }) =
        (false, some { s0 with hints_used := List.range h })) := by
  refine ⟨iterate_hints_range hints s0 hst hh h hle, List.pairwise_lt_range h,
    fun i hi => lt_of_lt_of_le (List.mem_range.mp hi) hle, fun heq => ?_⟩
  rw [show_hint, if_neg (by simp [hst])]
  by_cases h0 : hints.length = 0
  · rw [if_pos h0]
  · rw [if_neg h0, if_pos (by rw [List.length_range, heq])]

/-- Witness for C9: two hint requests against a two-hint challenge reveal
indices 0 then 1, and a third request changes nothing. -/
theorem hints_progressive_witness :
    iterate_hints demoChallenge.hints (some demoInProgressSession) 2 =
      some { demoInProgressSession with hints_used := [0, 1] } ∧
    show_hint demoChallenge.hints
        (some { demoInProgressSession with hints_used := [0, 1] }) =
      (false, some { demoInProgressSession with hints_used := [0, 1] }) := by
  have h := hints_progressive demoChallenge.hints demoInProgressSession rfl rfl 2
    (by decide)
  have e : List.range 2 = [0, 1] := by decide
  rw [← e]
  exact ⟨h.1, h.2.2.2 (by decide)⟩

end CodeForge
